import Mathlib

/-!
Verification of the `fractalxaos/ham` repository: shallow embeddings of
the arednsig polling agent (`src/arednsig/bin/arednsigAgent.py` and its
firmware variants), the FT991 CAT utility (`src/ft991/ft991utility/ft991.py`)
and the nodepower I2C sensor drivers (`src/nodepower/bin/python3/ina260.py`,
`src/nodepower/bin/tmp102.py`), together with theorems settling the claims
about them.
-/

namespace Ham

/-! ### nodepower sensor decoders (ina260.py, tmp102.py)

`ina260.getCurrent` reads two bytes, forms the 16-bit word
`bdata = data[0] << 8 | data[1]`, and converts with
`if bdata > 0x7FFF: bdata = -(0xFFFF - bdata)`, then `mAmps = bdata * 1.25`.
`tmp102.getTempC` forms the 12-bit word `bData = (data[0]<<8 | data[1]) >> 4`
and converts with `if bData > 0x7FF: bData = -(0xFFF - bData)`, then
`tempC = bData * 0.0625`.  The scale factors 1.25 and 0.0625 are exactly
representable, so the floats are modelled as rationals. -/

/-- The signed integer `ina260.getCurrent` derives from the raw 16-bit
register word: `if bdata > 0x7FFF: bdata = -(0xFFFF - bdata)`. -/
def ina260.decode (bdata : ℕ) : ℤ :=
  if bdata > 0x7FFF then -((0xFFFF : ℤ) - bdata) else bdata

/-- `ina260.getCurrent`: decoded register value times 1.25 mA per LSB. -/
def ina260.getCurrent (bdata : ℕ) : ℚ :=
  (ina260.decode bdata : ℚ) * (125 / 100)

/-- The signed integer `tmp102.getTempC` derives from the 12-bit word:
`if bData > 0x7FF: bData = -(0xFFF - bData)`. -/
def tmp102.decode (bData : ℕ) : ℤ :=
  if bData > 0x7FF then -((0xFFF : ℤ) - bData) else bData

/-- `tmp102.getTempC`: decoded word times 0.0625 °C per LSB. -/
def tmp102.getTempC (bData : ℕ) : ℚ :=
  (tmp102.decode bData : ℚ) * (625 / 10000)

/-- True two's-complement reading of a 16-bit word, for comparison. -/
def twosComplement16 (r : ℕ) : ℤ :=
  if r > 0x7FFF then (r : ℤ) - 0x10000 else r

/-- True two's-complement reading of a 12-bit word, for comparison. -/
def twosComplement12 (b : ℕ) : ℤ :=
  if b > 0x7FF then (b : ℤ) - 0x1000 else b

/-! ### ft991.py `setPower`

```
def setPower(power):
    power = int(power)
    if power < 5 or power > 100:
        raise Exception('Power must be between 0 and 100 watts, inclusive.')
    sCmd += 'PC%03.d;' % power
    sResult = sendCommand(sCmd)
    ...
```
`sCmd` is a local variable that is never initialised before the augmented
assignment `sCmd += ...`, so that line raises `UnboundLocalError`.  The
embedding models a Python local read as `Option String` (`none` = unbound)
and records the commands given to `sendCommand`. -/

inductive PyError where
  | exceptionRaised (msg : String)
  | unboundLocalError (name : String)
  | keyError (key : String)
  deriving DecidableEq, Repr

instance {ε α : Type} [DecidableEq ε] [DecidableEq α] :
    DecidableEq (Except ε α) := fun x y =>
  match x, y with
  | .ok a, .ok b =>
    if h : a = b then .isTrue (by subst h; rfl)
    else .isFalse (fun hc => h (Except.ok.inj hc))
  | .error a, .error b =>
    if h : a = b then .isTrue (by subst h; rfl)
    else .isFalse (fun hc => h (Except.error.inj hc))
  | .ok _, .error _ => .isFalse (fun hc => Except.noConfusion hc)
  | .error _, .ok _ => .isFalse (fun hc => Except.noConfusion hc)

/-- Python augmented assignment `name += s` on a local whose current
binding is `v` (`none` when the name has not been assigned). -/
def augAssign (name : String) (v : Option String) (s : String) :
    Except PyError String :=
  match v with
  | none => .error (.unboundLocalError name)
  | some t => .ok (t ++ s)

/-- `ft991.setPower`, returning the list of command strings passed to
`sendCommand` when no exception is raised.  In the function body no
assignment to `sCmd` precedes `sCmd += 'PC%03.d;' % power`, so the
binding fed to `augAssign` is `none`. -/
def setPower (power : ℤ) : Except PyError (List String) := do
  if power < 5 ∨ power > 100 then
    throw (.exceptionRaised "Power must be between 0 and 100 watts, inclusive.")
  let sCmd ← augAssign "sCmd" none ("PC" ++ toString power ++ ";")
  pure [sCmd]

/-! ### arednsig node-status flip-flop (setNodeStatus / setStatusToOffline)

State carried across poll cycles: `failedUpdateCount`, `nodeOnline`, and
the existence of the two output data files that `setStatusToOffline`
removes.  `_MAX_FAILED_DATA_REQUESTS = 0` in the arednsig agent. -/

/-- Max number of failed data requests allowed
(`_MAX_FAILED_DATA_REQUESTS` in arednsigAgent.py). -/
def MAX_FAILED_DATA_REQUESTS : ℕ := 0

structure NodeState where
  failedUpdateCount : ℕ
  nodeOnline : Bool
  outputDataFileExists : Bool
  smallOutputFileExists : Bool
  deriving DecidableEq, Repr

/-- Initial agent state: counter 0, node assumed online. -/
def initNodeState : NodeState :=
  { failedUpdateCount := 0, nodeOnline := true,
    outputDataFileExists := true, smallOutputFileExists := true }

/-- `setStatusToOffline`: remove both output data files if present and
mark the node offline. -/
def setStatusToOffline (s : NodeState) : NodeState :=
  { s with outputDataFileExists := false,
           smallOutputFileExists := false,
           nodeOnline := false }

/-- `setNodeStatus(updateSuccess)` with the failure threshold as a
parameter (`_MAX_FAILED_DATA_REQUESTS`).  On success the counter resets
and the node is marked online; on failure the counter increments; then,
if the counter exceeds the threshold, `setStatusToOffline` runs. -/
def setNodeStatus (maxFailed : ℕ) (updateSuccess : Bool) (s : NodeState) :
    NodeState :=
  let s :=
    if updateSuccess then
      { s with failedUpdateCount := 0, nodeOnline := true }
    else
      { s with failedUpdateCount := s.failedUpdateCount + 1 }
  if s.failedUpdateCount > maxFailed then setStatusToOffline s else s

/-- Fold `setNodeStatus` over a sequence of per-cycle outcomes. -/
def runNodeStatus (maxFailed : ℕ) (outcomes : List Bool) (s : NodeState) :
    NodeState :=
  outcomes.foldl (fun st ok => setNodeStatus maxFailed ok st) s

/-! ### arednsig `updateDatabase`

One converted data point: the eight integer fields written to the RRD,
in the order they appear in the update command. -/

structure DataPoint where
  time : ℤ
  signal : ℤ
  noise : ℤ
  snr : ℤ
  rx_mcs : ℤ
  tx_mcs : ℤ
  rx_rate : ℤ
  tx_rate : ℤ
  deriving DecidableEq, Repr

/-- The `rrdtool update` command formatted by `updateDatabase`:
`"rrdtool update %s %s:%s:%s:%s:%s:%s:%s:%s"`. -/
def rrdUpdateCmd (rrdFile : String) (p : DataPoint) : String :=
  "rrdtool update " ++ rrdFile ++ " " ++ toString p.time ++ ":" ++
    toString p.signal ++ ":" ++ toString p.noise ++ ":" ++ toString p.snr ++
    ":" ++ toString p.rx_mcs ++ ":" ++ toString p.tx_mcs ++ ":" ++
    toString p.rx_rate ++ ":" ++ toString p.tx_rate

/-- Python-2 comparison `t <= last` where `last` may be `None`
(`getLastDataPointTime` returns `None` on failure; in Python 2 `None`
compares below every integer, so `t <= None` is `False`). -/
def pyLeOpt (t : ℤ) (last : Option ℤ) : Bool :=
  match last with
  | none => false
  | some v => decide (t ≤ v)

/-- `updateDatabase(ldData)`.  `rrdOk` is the success oracle for running
an rrdtool command as a subprocess; `last` is the result of
`getLastDataPointTime()`.  Returns the function's Boolean result together
with the list of `rrdtool update` commands actually issued, in order.
Points whose `time` is `<=` the last stored timestamp are skipped; a
failing invocation returns `False` immediately. -/
def updateDatabase (rrdOk : String → Bool) (rrdFile : String)
    (last : Option ℤ) : List DataPoint → Bool × List String
  | [] => (true, [])
  | p :: rest =>
    if pyLeOpt p.time last then
      updateDatabase rrdOk rrdFile last rest
    else
      let cmd := rrdUpdateCmd rrdFile p
      if rrdOk cmd then
        let r := updateDatabase rrdOk rrdFile last rest
        (r.1, cmd :: r.2)
      else
        (false, [cmd])

/-! ### arednsig `parseNodeData`, main agent and aredn_fw_3_19_3_0 variant

Both begin with the identical expression `json.loads(sData[1:-1])`,
modelled by the shared parameter `jsonLoads` applied to the string with
its first and last characters removed; the decoded data points are an
abstract type `α`.  The main agent then raises (returns `False`) when
the trimmed list is shorter than `iTrail`; the 3_19_3_0 variant replaced
that `raise` with `pass`. -/

/-- Python slice `s[1:-1]`. -/
def pySlice1m1 (s : String) : String := (s.drop 1).dropRight 1

/-- Python slice `l[-n:]` for a non-negative `n`: note `l[-0:]` is the
whole list. -/
def pyLastSlice {α : Type} (n : ℕ) (l : List α) : List α :=
  if n = 0 then l else l.drop (l.length - n)

/-- `parseNodeData(sData, ldData)` of the main agent
(`src/arednsig/bin/arednsigAgent.py`): on success the caller's list is
replaced by the trimmed data, on failure (including the
`"truncated list"` exception) it is left unchanged. -/
def parseNodeData {α : Type} (jsonLoads : String → Option (List α))
    (iTrail : ℕ) (sData : String) (ldData : List α) : Bool × List α :=
  match jsonLoads (pySlice1m1 sData) with
  | none => (false, ldData)
  | some ldTmp =>
    let t := pyLastSlice iTrail ldTmp
    if t.length ≠ iTrail then (false, ldData)
    else (true, t)

/-- `parseNodeData(sData, ldData)` of the aredn_fw_3_19_3_0 variant:
identical except that the truncated-list check does `pass` instead of
raising, so a short list is accepted. -/
def parseNodeData_fw_3_19_3_0 {α : Type} (jsonLoads : String → Option (List α))
    (iTrail : ℕ) (sData : String) (ldData : List α) : Bool × List α :=
  match jsonLoads (pySlice1m1 sData) with
  | none => (false, ldData)
  | some ldTmp =>
    let t := pyLastSlice iTrail ldTmp
    (true, t)

/-! ### arednsig `writeOutputDataFile`

The function writes the heartbeat file `_SMALL_OUTPUT_FILE` and returns
`True` (line 358); the block that would write `sData` to
`_OUTPUT_DATA_FILE` (lines 360-368) sits after that `return` and is
unreachable.  `writeOk` is the success oracle for opening and writing a
file; the result records the writes that actually happened as
(file, contents) pairs. -/

inductive OutFile where
  | smallOutput
  | outputData
  deriving DecidableEq, Repr

/-- The heartbeat JSON written to `_SMALL_OUTPUT_FILE`:
`"[{\"date\":\"%s\",\"period\":\"%s\"}]" % (lastUpdate, dataRequestInterval)`. -/
def heartbeatString (lastUpdate : String) (dataRequestInterval : ℕ) : String :=
  "[\x7b\"date\":\"" ++ lastUpdate ++ "\",\"period\":\"" ++
    toString dataRequestInterval ++ "\"\x7d]"

/-- `writeOutputDataFile(sData, ldData)` of the main agent.  `lastUpdate`
stands for the `time.strftime` rendering of `ldData[-1]['time']`. -/
def writeOutputDataFile (writeOk : OutFile → Bool) (sData : String)
    (lastUpdate : String) (dataRequestInterval : ℕ) :
    Bool × List (OutFile × String) :=
  let sDate := heartbeatString lastUpdate dataRequestInterval
  if writeOk OutFile.smallOutput then
    (true, [(OutFile.smallOutput, sDate)])
  else
    (false, [])

/-! ### arednsig main-loop poll cycle

One pass through the data-request branch of `main`'s `while` loop
(lines 600-631).  The trace records, for each stage, whether it ran and
whether it succeeded, the number of HTTP requests issued, the rrdtool
update commands issued, and the Boolean handed to `setNodeStatus`. -/

structure CycleTrace where
  httpRequests : ℕ
  fetchOk : Bool
  parseRan : Bool
  parseOk : Bool
  convertRan : Bool
  convertOk : Bool
  updateRan : Bool
  updateOk : Bool
  writeRan : Bool
  rrdUpdateCmds : List String
  filesWritten : List (OutFile × String)
  statusArg : Bool
  deriving Repr

/-- The stages of a poll cycle after a successful fetch: parse, then
(conditionally) convert, database update, and output-file write, with
`result` threaded exactly as in `main` and finally handed to
`setNodeStatus`.  `reqs` is the number of HTTP requests the fetch
issued. -/
def pollCycleBody {α : Type} (jsonLoads : String → Option (List α))
    (iTrail : ℕ) (convert : List α → Bool × List DataPoint)
    (rrdOk : String → Bool) (rrdFile : String) (last : Option ℤ)
    (writeOk : OutFile → Bool) (lastUpdate : String)
    (reqs : ℕ) (sData : String) : CycleTrace :=
  let pr := parseNodeData jsonLoads iTrail sData []
  if pr.1 then
    let cr := convert pr.2
    if cr.1 then
      let ur := updateDatabase rrdOk rrdFile last cr.2
      if ur.1 then
        -- `writeOutputDataFile(sData, ldData)` is called but its
        -- return value is discarded by `main`.
        let wr := writeOutputDataFile writeOk sData lastUpdate iTrail
        { httpRequests := reqs, fetchOk := true,
          parseRan := true, parseOk := true,
          convertRan := true, convertOk := true,
          updateRan := true, updateOk := true,
          writeRan := true, rrdUpdateCmds := ur.2, filesWritten := wr.2,
          statusArg := true }
      else
        { httpRequests := reqs, fetchOk := true,
          parseRan := true, parseOk := true,
          convertRan := true, convertOk := true,
          updateRan := true, updateOk := false,
          writeRan := false, rrdUpdateCmds := ur.2, filesWritten := [],
          statusArg := false }
    else
      { httpRequests := reqs, fetchOk := true,
        parseRan := true, parseOk := true,
        convertRan := true, convertOk := false,
        updateRan := false, updateOk := false,
        writeRan := false, rrdUpdateCmds := [], filesWritten := [],
        statusArg := false }
  else
    { httpRequests := reqs, fetchOk := true,
      parseRan := true, parseOk := false,
      convertRan := false, convertOk := false,
      updateRan := false, updateOk := false,
      writeRan := false, rrdUpdateCmds := [], filesWritten := [],
      statusArg := false }

/-- One poll cycle of `main`.  `fetch1`/`fetch2` are the results of the
first `getArednNodeData()` call and of the single retry issued when the
first returns `None`; `convert` abstracts `convertData` (outcome and
in-place converted list); `rrdOk`, `rrdFile`, `last` feed
`updateDatabase`; `writeOk` feeds `writeOutputDataFile`; `lastUpdate`
stands for the formatted time used in the heartbeat file.  A stage's
`...Ok` field is `false` when the stage did not run. -/
def pollCycle {α : Type} (fetch1 fetch2 : Option String)
    (jsonLoads : String → Option (List α)) (iTrail : ℕ)
    (convert : List α → Bool × List DataPoint)
    (rrdOk : String → Bool) (rrdFile : String) (last : Option ℤ)
    (writeOk : OutFile → Bool) (lastUpdate : String) : CycleTrace :=
  match fetch1 with
  | some sData =>
    pollCycleBody jsonLoads iTrail convert rrdOk rrdFile last writeOk
      lastUpdate 1 sData
  | none =>
    -- If the first http request fails, try one more time.
    match fetch2 with
    | some sData =>
      pollCycleBody jsonLoads iTrail convert rrdOk rrdFile last writeOk
        lastUpdate 2 sData
    | none =>
      { httpRequests := 2, fetchOk := false,
        parseRan := false, parseOk := false,
        convertRan := false, convertOk := false,
        updateRan := false, updateOk := false,
        writeRan := false, rrdUpdateCmds := [], filesWritten := [],
        statusArg := false }

/-! ### FT991 translation tables (ft991.py)

Python 3.7+ dictionaries preserve insertion order, so each table is
embedded as an association list in source order.  `T[k]` is
`pyDictGet`, and the reverse lookup
`list(T.keys())[list(T.values()).index(v)]` used by every `get` method
is `revLookup` (the key of the first pair whose value is `v`). -/

def bState : List (String × String) := [("OFF", "0"), ("ON", "1")]

def dMode : List (String × String) :=
  [("LSB", "1"), ("USB", "2"), ("CW", "3"), ("FM", "4"), ("AM", "5"),
   ("RTTY-LSB", "6"), ("CW-R", "7"), ("DATA-LSB", "8"), ("RTTY-USB", "9"),
   ("DATA-FM", "A"), ("FM-N", "B"), ("DATA-USB", "C"), ("AM-N", "D"),
   ("C4FM", "E")]

def dShift : List (String × String) :=
  [("OFF", "0"), ("+RPT", "1"), ("-RPT", "2")]

def dPower : List (String × String) :=
  [("LOW", "5"), ("MID", "020"), ("HIGH", "50"), ("MAX", "100")]

def dEncode : List (String × String) :=
  [("OFF", "0"), ("ENC/DEC", "1"), ("TONE ENC", "2"),
   ("DCS ENC/DEC", "4"), ("DCS", "3")]

def dTones : List (String × String) :=
  [("67.0 Hz", "000"), ("69.3 Hz", "001"), ("71.9 Hz", "002"),
   ("74.4 Hz", "003"), ("77.0 Hz", "004"), ("79.7 Hz", "005"),
   ("82.5 Hz", "006"), ("85.4 Hz", "007"), ("88.5 Hz", "008"),
   ("91.5 Hz", "009"), ("94.8 Hz", "010"), ("97.4 Hz", "011"),
   ("100.0 Hz", "012"), ("103.5 Hz", "013"), ("107.2 Hz", "014"),
   ("110.9 Hz", "015"), ("114.8 Hz", "016"), ("118.8 Hz", "017"),
   ("123.0 Hz", "018"), ("127.3 Hz", "019"), ("131.8 Hz", "020"),
   ("136.5 Hz", "021"), ("141.3 Hz", "022"), ("146.2 Hz", "023"),
   ("151.4 Hz", "024"), ("156.7 Hz", "025"), ("159.8 Hz", "026"),
   ("162.2 Hz", "027"), ("165.5 Hz", "028"), ("167.9 Hz", "029"),
   ("171.3 Hz", "030"), ("173.8 Hz", "031"), ("177.3 Hz", "032"),
   ("179.9 Hz", "033"), ("183.5 Hz", "034"), ("186.2 Hz", "035"),
   ("189.9 Hz", "036"), ("192.8 Hz", "037"), ("196.6 Hz", "038"),
   ("199.5 Hz", "039"), ("203.5 Hz", "040"), ("206.5 Hz", "041"),
   ("210.7 Hz", "042"), ("218.1 Hz", "043"), ("225.7 Hz", "044"),
   ("229.1 Hz", "045"), ("233.6 Hz", "046"), ("241.8 Hz", "047"),
   ("250.3 Hz", "048"), ("254.1 Hz", "049")]

def dDcs : List (String × String) :=
  [("23", "000"), ("25", "001"), ("26", "002"), ("31", "003"), ("32", "004"),
   ("36", "005"), ("43", "006"), ("47", "007"), ("51", "008"), ("53", "009"),
   ("54", "010"), ("65", "011"), ("71", "012"), ("72", "013"), ("73", "014"),
   ("74", "015"), ("114", "016"), ("115", "017"), ("116", "018"),
   ("122", "019"), ("125", "020"), ("131", "021"), ("132", "022"),
   ("134", "023"), ("143", "024"), ("145", "025"), ("152", "026"),
   ("155", "027"), ("156", "028"), ("162", "029"), ("165", "030"),
   ("172", "031"), ("174", "032"), ("205", "033"), ("212", "034"),
   ("223", "035"), ("225", "036"), ("226", "037"), ("243", "038"),
   ("244", "039"), ("245", "040"), ("246", "041"), ("251", "042"),
   ("252", "043"), ("255", "044"), ("261", "045"), ("263", "046"),
   ("265", "047"), ("266", "048"), ("271", "049"), ("274", "050"),
   ("306", "051"), ("311", "052"), ("315", "053"), ("325", "054"),
   ("331", "055"), ("332", "056"), ("343", "057"), ("346", "058"),
   ("351", "059"), ("356", "060"), ("364", "061"), ("365", "062"),
   ("371", "063"), ("411", "064"), ("412", "065"), ("413", "066"),
   ("423", "067"), ("431", "068"), ("432", "069"), ("445", "070"),
   ("446", "071"), ("452", "072"), ("454", "073"), ("455", "074"),
   ("462", "075"), ("464", "076"), ("465", "077"), ("466", "078"),
   ("503", "079"), ("506", "080"), ("516", "081"), ("523", "082"),
   ("526", "083"), ("532", "084"), ("546", "085"), ("565", "086"),
   ("606", "087"), ("612", "088"), ("624", "089"), ("627", "090"),
   ("631", "091"), ("632", "092"), ("654", "093"), ("662", "094"),
   ("664", "095"), ("703", "096"), ("712", "097"), ("723", "098"),
   ("731", "099"), ("732", "100"), ("734", "101"), ("743", "102"),
   ("754", "103")]

def dPreamp : List (String × String) :=
  [("IPO", "0"), ("AMP 1", "1"), ("AMP 2", "2")]

def dNAR : List (String × String) := [("WIDE", "0"), ("NARROW", "1")]

/-- Python dictionary access `T[k]`: `KeyError` when absent. -/
def pyDictGet (T : List (String × String)) (k : String) :
    Except PyError String :=
  match T.find? (fun p => p.1 == k) with
  | some p => .ok p.2
  | none => .error (.keyError k)

/-- Reverse lookup `list(T.keys())[list(T.values()).index(v)]`: the key
of the first pair whose value is `v` (`none` models the `ValueError`
raised by `.index` when `v` does not occur). -/
def revLookup (T : List (String × String)) (v : String) : Option String :=
  (T.find? (fun p => p.2 == v)).map (fun p => p.1)

/-- Python slice `s[a:b]` (with `a ≤ b`). -/
def sliceChars (l : List Char) (a b : ℕ) : List Char :=
  (l.drop a).take (b - a)

/-- `ft991.setCTCSS(tone)`: the formatted `CN00%s;` command
(`KeyError` on an unknown tone). -/
def setCTCSSCmd (tone : String) : Except PyError String := do
  let t ← pyDictGet dTones tone
  pure ("CN00" ++ t ++ ";")

/-- The decoding half of `ft991.getCTCSS`: `'NA'` on the `?;` error
response, otherwise the reverse table lookup of `sResult[4:7]`. -/
def getCTCSSDecode (sResult : String) : Option String :=
  if sResult = "?;" then some "NA"
  else revLookup dTones (String.mk (sliceChars sResult.toList 4 7))

/-! ### ft991.py `setMemory` / `getMemory`

`setMemory` builds the `MT...` command by concatenating printf-formatted
fields; `getMemory` recovers the fields by slicing the response at fixed
offsets.  Strings are handled as `List Char`.  The frequency is carried
as the integer Hz value `iRxfreq = int(float(dMem['vfoa']) * 1E6)`
computed by `setMemory` (the float MHz↔Hz conversions on either side
are display formatting and are not embedded). -/

/-- Digit character for `d < 10`. -/
def digitChar (d : ℕ) : Char := Char.ofNat (48 + d)

/-- Zero-padded fixed-width decimal, the effect of Python
`'%0.wd' % n` for `0 ≤ n < 10^w`: exactly `w` digit characters. -/
def fmtFixed : ℕ → ℕ → List Char
  | 0, _ => []
  | w + 1, n => fmtFixed w (n / 10) ++ [digitChar (n % 10)]

/-- Python `'%+0.4d' % n` for `|n| ≤ 9999`: an explicit sign character
followed by four zero-padded digits. -/
def fmtSign4 (n : ℤ) : List Char :=
  (if n < 0 then '-' else '+') :: fmtFixed 4 n.natAbs

/-- Python `'%-12s' % s` for `s` of length at most 12: left-justified,
space-padded to width 12. -/
def padRight12 (l : List Char) : List Char :=
  l ++ List.replicate (12 - l.length) ' '

/-- The memory-channel fields accepted by `setMemory`. -/
structure MemSettings where
  memloc : ℕ
  vfoaHz : ℕ
  clarfreq : ℤ
  rxclar : String
  txclar : String
  mode : String
  encode : String
  rpoffset : String
  tag : String
  deriving DecidableEq, Repr

/-- `ft991.setMemory(dMem)`: validate each field and build the `MT`
command string, raising on out-of-range data or unknown table keys. -/
def setMemoryCmd (d : MemSettings) : Except PyError (List Char) := do
  if d.memloc < 1 ∨ d.memloc > 118 then
    throw (.exceptionRaised
      "Memory location must be between 1 and 118, inclusive.")
  if d.vfoaHz < 30000 ∨ d.vfoaHz > 450000000 then
    throw (.exceptionRaised
      "VFO-A frequency must be between 30 kHz and 450 MHz, inclusive.")
  if d.clarfreq.natAbs > 9999 then
    throw (.exceptionRaised
      "Clarifer frequency must be between -9999 Hz and +9999 Hz, inclusive.")
  let rx ← pyDictGet bState d.rxclar
  let tx ← pyDictGet bState d.txclar
  let md ← pyDictGet dMode d.mode
  let en ← pyDictGet dEncode d.encode
  let rp ← pyDictGet dShift d.rpoffset
  if d.tag.length > 12 then
    throw (.exceptionRaised "Memory tags must be twelve characters or less.")
  pure ("MT".toList ++ fmtFixed 3 d.memloc ++ fmtFixed 9 d.vfoaHz ++
    fmtSign4 d.clarfreq ++ rx.toList ++ tx.toList ++ md.toList ++ ['0'] ++
    en.toList ++ ['0', '0'] ++ rp.toList ++ ['0'] ++
    padRight12 d.tag.toList ++ [';'])

/-- Digit value of a character, `int` on a single digit. -/
def charDigitVal (c : Char) : ℕ := c.toNat - 48

/-- Python `int` on a non-empty string of decimal digits. -/
def parseNatChars (l : List Char) : ℕ :=
  l.foldl (fun a c => a * 10 + charDigitVal c) 0

/-- Python `int` on a non-empty digit string with an optional leading
sign. -/
def parseIntChars (l : List Char) : ℤ :=
  match l with
  | [] => 0
  | c :: rest =>
    if c = '-' then -(parseNatChars rest : ℤ)
    else if c = '+' then (parseNatChars rest : ℤ)
    else (parseNatChars (c :: rest) : ℤ)

/-- Python `str.strip()` on a character list. -/
def pyStrip (l : List Char) : List Char :=
  (((l.dropWhile Char.isWhitespace).reverse).dropWhile
    Char.isWhitespace).reverse

/-- The fields `getMemory` recovers from the radio's `MT` response
(reverse lookups are `Option`-valued: `none` models the `ValueError` of
a failed `.index`). -/
structure MemParsed where
  memloc : ℕ
  vfoaHz : ℕ
  clarfreq : ℤ
  rxclar : Option String
  txclar : Option String
  mode : Option String
  encode : Option String
  rpoffset : Option String
  tag : String
  deriving DecidableEq, Repr

/-- The parsing half of `ft991.getMemory`: slice the response string at
the fixed offsets `[2:5]`, `[5:14]`, `[14:19]`, `[19]`, `[20]`, `[21]`,
`[23]`, `[26]`, `[28:40]`, convert the numeric fields with `int`,
reverse-look-up the coded fields, and strip the tag. -/
def getMemoryParse (s : List Char) : MemParsed :=
  { memloc := parseNatChars (sliceChars s 2 5)
    vfoaHz := parseNatChars (sliceChars s 5 14)
    clarfreq := parseIntChars (sliceChars s 14 19)
    rxclar := revLookup bState (String.mk (sliceChars s 19 20))
    txclar := revLookup bState (String.mk (sliceChars s 20 21))
    mode := revLookup dMode (String.mk (sliceChars s 21 22))
    encode := revLookup dEncode (String.mk (sliceChars s 23 24))
    rpoffset := revLookup dShift (String.mk (sliceChars s 26 27))
    tag := String.mk (pyStrip (sliceChars s 28 40)) }

/-! ## Helper lemmas -/

theorem runNodeStatus_append (m : ℕ) (outcomes : List Bool) (x : Bool)
    (s : NodeState) :
    runNodeStatus m (outcomes ++ [x]) s =
      setNodeStatus m x (runNodeStatus m outcomes s) := by
  simp [runNodeStatus, List.foldl_append]

theorem setNodeStatus_true_fields (m : ℕ) (s : NodeState) :
    (setNodeStatus m true s).failedUpdateCount = 0 ∧
      (setNodeStatus m true s).nodeOnline = true := by
  simp [setNodeStatus, setStatusToOffline]

theorem setNodeStatus_false_count (m : ℕ) (s : NodeState) :
    (setNodeStatus m false s).failedUpdateCount =
      s.failedUpdateCount + 1 := by
  by_cases h : s.failedUpdateCount + 1 > m <;>
    simp [setNodeStatus, setStatusToOffline, h]

theorem setNodeStatus_false_offline (m : ℕ) (s : NodeState)
    (h : s.failedUpdateCount + 1 > m) :
    (setNodeStatus m false s).nodeOnline = false ∧
      (setNodeStatus m false s).outputDataFileExists = false ∧
      (setNodeStatus m false s).smallOutputFileExists = false := by
  simp [setNodeStatus, setStatusToOffline, h]

theorem runNodeStatus_online_iff (outcomes : List Bool) :
    (runNodeStatus MAX_FAILED_DATA_REQUESTS outcomes
        initNodeState).nodeOnline = true ↔
      outcomes.getLast? = some true ∨ outcomes = [] := by
  induction outcomes using List.reverseRecOn with
  | nil => simp [runNodeStatus, initNodeState]
  | append_singleton l x _ =>
    rw [runNodeStatus_append]
    cases x with
    | true => simp [setNodeStatus, setStatusToOffline, MAX_FAILED_DATA_REQUESTS]
    | false => simp [setNodeStatus, setStatusToOffline, MAX_FAILED_DATA_REQUESTS]

theorem revLookup_leftInv_bState :
    ∀ p ∈ bState, revLookup bState p.2 = some p.1 := by decide

theorem revLookup_leftInv_dMode :
    ∀ p ∈ dMode, revLookup dMode p.2 = some p.1 := by decide

theorem revLookup_leftInv_dShift :
    ∀ p ∈ dShift, revLookup dShift p.2 = some p.1 := by decide

theorem revLookup_leftInv_dPower :
    ∀ p ∈ dPower, revLookup dPower p.2 = some p.1 := by decide

theorem revLookup_leftInv_dEncode :
    ∀ p ∈ dEncode, revLookup dEncode p.2 = some p.1 := by decide

set_option maxRecDepth 4000 in
theorem revLookup_leftInv_dTones :
    ∀ p ∈ dTones, revLookup dTones p.2 = some p.1 := by decide

set_option maxRecDepth 10000 in
theorem revLookup_leftInv_dDcs :
    ∀ p ∈ dDcs, revLookup dDcs p.2 = some p.1 := by decide

theorem revLookup_leftInv_dPreamp :
    ∀ p ∈ dPreamp, revLookup dPreamp p.2 = some p.1 := by decide

theorem revLookup_leftInv_dNAR :
    ∀ p ∈ dNAR, revLookup dNAR p.2 = some p.1 := by decide

theorem values_nodup_small :
    (bState.map Prod.snd).Nodup ∧ (dMode.map Prod.snd).Nodup ∧
      (dShift.map Prod.snd).Nodup ∧ (dPower.map Prod.snd).Nodup ∧
      (dEncode.map Prod.snd).Nodup ∧ (dPreamp.map Prod.snd).Nodup ∧
      (dNAR.map Prod.snd).Nodup := by decide

set_option maxRecDepth 4000 in
theorem values_nodup_dTones : (dTones.map Prod.snd).Nodup := by decide

set_option maxRecDepth 10000 in
theorem values_nodup_dDcs : (dDcs.map Prod.snd).Nodup := by decide

set_option maxRecDepth 8000 in
theorem ctcss_encode_decode :
    ∀ p ∈ dTones, setCTCSSCmd p.1 = .ok ("CN00" ++ p.2 ++ ";") ∧
      getCTCSSDecode ("CN00" ++ p.2 ++ ";") = some p.1 := by decide

theorem except_ok_bind {ε α β : Type} (a : α) (f : α → Except ε β) :
    ((Except.ok a : Except ε α) >>= f) = f a := rfl

theorem except_pure_unit_bind {ε β : Type} (f : PUnit → Except ε β) :
    ((pure PUnit.unit : Except ε PUnit) >>= f) = f PUnit.unit := rfl

theorem fmtFixed_length (w n : ℕ) : (fmtFixed w n).length = w := by
  induction w generalizing n with
  | zero => rfl
  | succ w ih => simp [fmtFixed, ih]

theorem fmtSign4_length (n : ℤ) : (fmtSign4 n).length = 5 := by
  simp [fmtSign4, fmtFixed_length]

theorem charDigitVal_digitChar :
    ∀ d : ℕ, d < 10 → charDigitVal (digitChar d) = d := by decide

theorem parseNatChars_append_singleton (l : List Char) (c : Char) :
    parseNatChars (l ++ [c]) = parseNatChars l * 10 + charDigitVal c := by
  simp [parseNatChars, List.foldl_append]

theorem parseNatChars_fmtFixed (w n : ℕ) :
    parseNatChars (fmtFixed w n) = n % 10 ^ w := by
  induction w generalizing n with
  | zero => simp [fmtFixed, parseNatChars, Nat.mod_one]
  | succ w ih =>
    rw [fmtFixed, parseNatChars_append_singleton, ih,
      charDigitVal_digitChar _ (Nat.mod_lt _ (by norm_num)),
      pow_succ, Nat.mul_comm (10 ^ w) 10, Nat.mod_mul]
    ring

theorem parseNatChars_fmtFixed_of_lt (w n : ℕ) (h : n < 10 ^ w) :
    parseNatChars (fmtFixed w n) = n := by
  rw [parseNatChars_fmtFixed, Nat.mod_eq_of_lt h]

theorem parseIntChars_minus (rest : List Char) :
    parseIntChars ('-' :: rest) = -(parseNatChars rest : ℤ) := rfl

theorem parseIntChars_plus (rest : List Char) :
    parseIntChars ('+' :: rest) = (parseNatChars rest : ℤ) := rfl

theorem parseIntChars_fmtSign4 (n : ℤ) (h : n.natAbs ≤ 9999) :
    parseIntChars (fmtSign4 n) = n := by
  by_cases hn : n < 0
  · rw [fmtSign4, if_pos hn, parseIntChars_minus,
      parseNatChars_fmtFixed_of_lt 4 n.natAbs (by omega)]
    omega
  · rw [fmtSign4, if_neg hn, parseIntChars_plus,
      parseNatChars_fmtFixed_of_lt 4 n.natAbs (by omega)]
    omega

theorem pyStrip_append_spaces (l : List Char) (k : ℕ) :
    pyStrip (l ++ List.replicate k ' ') = pyStrip l := by
  unfold pyStrip
  rw [List.dropWhile_append]
  by_cases h : (l.dropWhile Char.isWhitespace).isEmpty
  · rw [if_pos h]
    have h2 : (List.replicate k ' ').dropWhile Char.isWhitespace = [] := by
      rw [List.dropWhile_replicate]
      simp
    rw [h2]
    have h3 : l.dropWhile Char.isWhitespace = [] :=
      List.isEmpty_iff.1 h
    rw [h3]
  · rw [if_neg h]
    rw [List.reverse_append, List.reverse_replicate,
      List.dropWhile_append_of_pos ?_]
    intro a ha
    rw [List.mem_replicate] at ha
    rw [ha.2]
    decide

theorem padRight12_length (l : List Char) (h : l.length ≤ 12) :
    (padRight12 l).length = 12 := by
  simp [padRight12]
  omega

theorem values_len1_bState : ∀ p ∈ bState, p.2.length = 1 := by decide

theorem values_len1_dMode : ∀ p ∈ dMode, p.2.length = 1 := by decide

theorem values_len1_dEncode : ∀ p ∈ dEncode, p.2.length = 1 := by decide

theorem values_len1_dShift : ∀ p ∈ dShift, p.2.length = 1 := by decide

theorem pyDictGet_ok (T : List (String × String)) (k : String)
    (hk : k ∈ T.map Prod.fst) :
    ∃ p, p ∈ T ∧ p.1 = k ∧ pyDictGet T k = .ok p.2 := by
  have hex : ∃ x, x ∈ T ∧ (fun p => p.1 == k) x = true := by
    obtain ⟨p, hpT, hfst⟩ := List.mem_map.1 hk
    exact ⟨p, hpT, by simp [hfst]⟩
  cases hfind : T.find? (fun p => p.1 == k) with
  | none =>
    exfalso
    have := List.find?_isSome.2 hex
    rw [hfind] at this
    simp at this
  | some q =>
    refine ⟨q, List.mem_of_find?_eq_some hfind, ?_, by
      simp [pyDictGet, hfind]⟩
    have := List.find?_some hfind
    simpa using this

theorem drop_offset {l a rest : List Char} {n k j : ℕ} (ha : a.length = k)
    (hj : n + k = j) (h : l.drop n = a ++ rest) : l.drop j = rest := by
  subst hj
  rw [← List.drop_drop, h, List.drop_left' ha]

theorem getMemoryParse_append (m v c rx tx md en rp tg : List Char)
    (hm : m.length = 3) (hv : v.length = 9) (hc : c.length = 5)
    (hrx : rx.length = 1) (htx : tx.length = 1) (hmd : md.length = 1)
    (hen : en.length = 1) (hrp : rp.length = 1) (htg : tg.length = 12) :
    getMemoryParse ("MT".toList ++ (m ++ (v ++ (c ++ (rx ++ (tx ++ (md ++
        (['0'] ++ (en ++ (['0', '0'] ++ (rp ++ (['0'] ++
        (tg ++ [';']))))))))))))) =
      { memloc := parseNatChars m
        vfoaHz := parseNatChars v
        clarfreq := parseIntChars c
        rxclar := revLookup bState (String.mk rx)
        txclar := revLookup bState (String.mk tx)
        mode := revLookup dMode (String.mk md)
        encode := revLookup dEncode (String.mk en)
        rpoffset := revLookup dShift (String.mk rp)
        tag := String.mk (pyStrip tg) } := by
  have d2 : ("MT".toList ++ (m ++ (v ++ (c ++ (rx ++ (tx ++ (md ++
      (['0'] ++ (en ++ (['0', '0'] ++ (rp ++ (['0'] ++
      (tg ++ [';']))))))))))))).drop 2 =
      m ++ (v ++ (c ++ (rx ++ (tx ++ (md ++ (['0'] ++ (en ++ (['0', '0'] ++
        (rp ++ (['0'] ++ (tg ++ [';']))))))))))) :=
    List.drop_left' (by decide)
  have d5 := drop_offset (j := 5) hm (by norm_num) d2
  have d14 := drop_offset (j := 14) hv (by norm_num) d5
  have d19 := drop_offset (j := 19) hc (by norm_num) d14
  have d20 := drop_offset (j := 20) hrx (by norm_num) d19
  have d21 := drop_offset (j := 21) htx (by norm_num) d20
  have d22 := drop_offset (j := 22) hmd (by norm_num) d21
  have d23 := drop_offset (j := 23)
    (show (['0'] : List Char).length = 1 from rfl) (by norm_num) d22
  have d24 := drop_offset (j := 24) hen (by norm_num) d23
  have d26 := drop_offset (j := 26)
    (show (['0', '0'] : List Char).length = 2 from rfl) (by norm_num) d24
  have d27 := drop_offset (j := 27) hrp (by norm_num) d26
  have d28 := drop_offset (j := 28)
    (show (['0'] : List Char).length = 1 from rfl) (by norm_num) d27
  simp only [getMemoryParse, sliceChars, Nat.reduceSub]
  rw [d2, d5, d14, d19, d20, d21, d23, d26, d28,
    List.take_left' hm, List.take_left' hv, List.take_left' hc,
    List.take_left' hrx, List.take_left' htx, List.take_left' hmd,
    List.take_left' hen, List.take_left' hrp, List.take_left' htg]

/-! ## Claim theorems -/

/-- **C10.** Negative sensor readings are decoded one LSB away from true
two's complement: for every 16-bit register value `r > 0x7FFF`,
`ina260.getCurrent` returns `-(0xFFFF - r) * 1.25` mA — one LSB above
the two's-complement value — so `r = 0xFFFF` decodes to `0.0` mA instead
of `-1.25` mA; likewise for every 12-bit value `b > 0x7FF`,
`tmp102.getTempC` returns `-(0xFFF - b) * 0.0625` °C, so `b = 0xFFF`
decodes to `0.0` °C instead of `-0.0625` °C. -/
theorem c10_negative_decode_off_by_one :
    (∀ r : ℕ, 0x7FFF < r → r ≤ 0xFFFF →
      ina260.decode r = twosComplement16 r + 1 ∧
      ina260.getCurrent r = -((0xFFFF : ℚ) - r) * (125 / 100)) ∧
    ina260.getCurrent 0xFFFF = 0 ∧
    (twosComplement16 0xFFFF : ℚ) * (125 / 100) = -(125 / 100) ∧
    (∀ b : ℕ, 0x7FF < b → b ≤ 0xFFF →
      tmp102.decode b = twosComplement12 b + 1 ∧
      tmp102.getTempC b = -((0xFFF : ℚ) - b) * (625 / 10000)) ∧
    tmp102.getTempC 0xFFF = 0 ∧
    (twosComplement12 0xFFF : ℚ) * (625 / 10000) = -(625 / 10000) := by
  refine ⟨fun r h1 _h2 => ⟨?_, ?_⟩,
    by norm_num [ina260.getCurrent, ina260.decode],
    by norm_num [twosComplement16],
    fun b h1 _h2 => ⟨?_, ?_⟩,
    by norm_num [tmp102.getTempC, tmp102.decode],
    by norm_num [twosComplement12]⟩
  · simp only [ina260.decode, twosComplement16, if_pos h1]
    omega
  · simp only [ina260.getCurrent, ina260.decode, if_pos h1]
    push_cast
    ring
  · simp only [tmp102.decode, twosComplement12, if_pos h1]
    omega
  · simp only [tmp102.getTempC, tmp102.decode, if_pos h1]
    push_cast
    ring

/-- Witness for C10 at the concrete register values `0x8000` and
`0x800`. -/
theorem c10_witness :
    (ina260.decode 0x8000 = twosComplement16 0x8000 + 1) ∧
      (tmp102.decode 0x800 = twosComplement12 0x800 + 1) :=
  ⟨(c10_negative_decode_off_by_one.1 0x8000 (by decide) (by decide)).1,
   (c10_negative_decode_off_by_one.2.2.2.1 0x800 (by decide) (by decide)).1⟩

/-- **C9.** `ft991.setPower` never transmits a command: every argument
either fails the range check (`power < 5` or `power > 100`), raising the
range exception, or reaches the uninitialised augmented assignment
`sCmd += ...`, raising `UnboundLocalError`; `sendCommand` is never
reached, so no command list is ever returned. -/
theorem c9_setPower_never_sends (power : ℤ) :
    (power < 5 ∨ power > 100 →
      setPower power = .error (.exceptionRaised
        "Power must be between 0 and 100 watts, inclusive.")) ∧
    (¬(power < 5 ∨ power > 100) →
      setPower power = .error (.unboundLocalError "sCmd")) ∧
    ∀ cmds : List String, setPower power ≠ .ok cmds := by
  refine ⟨fun h => ?_, fun h => ?_, fun cmds h => ?_⟩
  · simp only [setPower, if_pos h]
    rfl
  · simp only [setPower, if_neg h]
    rfl
  · by_cases hr : power < 5 ∨ power > 100
    · have h1 : setPower power = Except.error (.exceptionRaised
          "Power must be between 0 and 100 watts, inclusive.") := by
        simp only [setPower, if_pos hr]
        rfl
      simp [h1] at h
    · have h1 : setPower power = Except.error (.unboundLocalError "sCmd") := by
        simp only [setPower, if_neg hr]
        rfl
      simp [h1] at h

/-- Witness for C9 at the concrete powers 200 (range error) and 50
(unbound local). -/
theorem c9_witness :
    setPower 200 = .error (.exceptionRaised
        "Power must be between 0 and 100 watts, inclusive.") ∧
      setPower 50 = .error (.unboundLocalError "sCmd") :=
  ⟨(c9_setPower_never_sends 200).1 (by decide),
   (c9_setPower_never_sends 50).2.1 (by decide)⟩

/-- **C3.** The node-status flip-flop is a bare consecutive-failure
counter: `setNodeStatus true` resets `failedUpdateCount` to 0 and leaves
the node online; `setNodeStatus false` increments the counter; whenever
the counter exceeds the threshold the node is marked offline and both
output data files are removed; and with the arednsig threshold
`_MAX_FAILED_DATA_REQUESTS = 0`, after any sequence of cycle outcomes
the node is online exactly when the most recent outcome was a success or
there has been no outcome at all. -/
theorem c3_node_status_flip_flop :
    (∀ (m : ℕ) (s : NodeState),
      (setNodeStatus m true s).failedUpdateCount = 0 ∧
        (setNodeStatus m true s).nodeOnline = true) ∧
    (∀ (m : ℕ) (s : NodeState),
      (setNodeStatus m false s).failedUpdateCount =
        s.failedUpdateCount + 1) ∧
    (∀ (m : ℕ) (s : NodeState), s.failedUpdateCount + 1 > m →
      (setNodeStatus m false s).nodeOnline = false ∧
        (setNodeStatus m false s).outputDataFileExists = false ∧
        (setNodeStatus m false s).smallOutputFileExists = false) ∧
    MAX_FAILED_DATA_REQUESTS = 0 ∧
    (∀ outcomes : List Bool,
      (runNodeStatus MAX_FAILED_DATA_REQUESTS outcomes
          initNodeState).nodeOnline = true ↔
        outcomes.getLast? = some true ∨ outcomes = []) :=
  ⟨setNodeStatus_true_fields, setNodeStatus_false_count,
   setNodeStatus_false_offline, rfl, runNodeStatus_online_iff⟩

/-- Witness for C3: one failed cycle at threshold 0 takes the node
offline and removes both output files; a subsequent success brings it
back online. -/
theorem c3_witness :
    ((setNodeStatus 0 false initNodeState).nodeOnline = false ∧
      (setNodeStatus 0 false initNodeState).outputDataFileExists = false ∧
      (setNodeStatus 0 false initNodeState).smallOutputFileExists = false) ∧
    ((runNodeStatus MAX_FAILED_DATA_REQUESTS [false, true]
        initNodeState).nodeOnline = true ↔
      ([false, true].getLast? = some true ∨ ([false, true] : List Bool) = [])) :=
  ⟨c3_node_status_flip_flop.2.2.1 0 initNodeState (by decide),
   c3_node_status_flip_flop.2.2.2.2 [false, true]⟩

/-- **C5.** `updateDatabase` appends samples monotonically: each point
whose `time` is `<=` the last timestamp stored in the RRD is skipped
with no command issued; each other point gets exactly one
`rrdtool update` command carrying its eight fields, in list order; the
function stops at the first failing invocation, returning `False` with
no further update issued, and returns `True` when every issued command
succeeds. -/
theorem c5_updateDatabase_monotone_append (rrdOk : String → Bool)
    (rrdFile : String) (last : Option ℤ) (ldData : List DataPoint) :
    updateDatabase rrdOk rrdFile last ldData =
      (let cmds := (ldData.filter fun p => !(pyLeOpt p.time last)).map
          (rrdUpdateCmd rrdFile)
       if cmds.all rrdOk then (true, cmds)
       else (false, cmds.takeWhile rrdOk ++ (cmds.dropWhile rrdOk).take 1)) := by
  induction ldData with
  | nil => simp [updateDatabase]
  | cons p rest ih =>
    simp only [updateDatabase]
    by_cases hskip : pyLeOpt p.time last
    · rw [if_pos hskip, List.filter_cons_of_neg (by simp [hskip])]
      exact ih
    · rw [if_neg hskip, List.filter_cons_of_pos (by simp [hskip]),
        List.map_cons]
      by_cases hok : rrdOk (rrdUpdateCmd rrdFile p)
      · rw [ih]
        by_cases hall :
          ((rest.filter fun p => !(pyLeOpt p.time last)).map
            (rrdUpdateCmd rrdFile)).all rrdOk
        · simp [hok, hall]
        · simp [hok, hall]
      · simp [hok]

theorem pollCycleBody_gating {α : Type} (jsonLoads : String → Option (List α))
    (iTrail : ℕ) (convert : List α → Bool × List DataPoint)
    (rrdOk : String → Bool) (rrdFile : String) (last : Option ℤ)
    (writeOk : OutFile → Bool) (lastUpdate : String)
    (reqs : ℕ) (sData : String) :
    (pollCycleBody jsonLoads iTrail convert rrdOk rrdFile last writeOk
        lastUpdate reqs sData).httpRequests = reqs ∧
    (pollCycleBody jsonLoads iTrail convert rrdOk rrdFile last writeOk
        lastUpdate reqs sData).fetchOk = true ∧
    (pollCycleBody jsonLoads iTrail convert rrdOk rrdFile last writeOk
        lastUpdate reqs sData).parseRan = true ∧
    ((pollCycleBody jsonLoads iTrail convert rrdOk rrdFile last writeOk
        lastUpdate reqs sData).convertRan =
      (pollCycleBody jsonLoads iTrail convert rrdOk rrdFile last writeOk
        lastUpdate reqs sData).parseOk) ∧
    ((pollCycleBody jsonLoads iTrail convert rrdOk rrdFile last writeOk
        lastUpdate reqs sData).updateRan =
      ((pollCycleBody jsonLoads iTrail convert rrdOk rrdFile last writeOk
        lastUpdate reqs sData).parseOk &&
       (pollCycleBody jsonLoads iTrail convert rrdOk rrdFile last writeOk
        lastUpdate reqs sData).convertOk)) ∧
    ((pollCycleBody jsonLoads iTrail convert rrdOk rrdFile last writeOk
        lastUpdate reqs sData).writeRan =
      ((pollCycleBody jsonLoads iTrail convert rrdOk rrdFile last writeOk
        lastUpdate reqs sData).parseOk &&
       (pollCycleBody jsonLoads iTrail convert rrdOk rrdFile last writeOk
        lastUpdate reqs sData).convertOk &&
       (pollCycleBody jsonLoads iTrail convert rrdOk rrdFile last writeOk
        lastUpdate reqs sData).updateOk)) ∧
    ((pollCycleBody jsonLoads iTrail convert rrdOk rrdFile last writeOk
        lastUpdate reqs sData).statusArg =
      ((pollCycleBody jsonLoads iTrail convert rrdOk rrdFile last writeOk
        lastUpdate reqs sData).parseOk &&
       (pollCycleBody jsonLoads iTrail convert rrdOk rrdFile last writeOk
        lastUpdate reqs sData).convertOk &&
       (pollCycleBody jsonLoads iTrail convert rrdOk rrdFile last writeOk
        lastUpdate reqs sData).updateOk)) ∧
    ((pollCycleBody jsonLoads iTrail convert rrdOk rrdFile last writeOk
        lastUpdate reqs sData).updateRan = false →
      (pollCycleBody jsonLoads iTrail convert rrdOk rrdFile last writeOk
        lastUpdate reqs sData).rrdUpdateCmds = []) := by
  simp only [pollCycleBody]
  by_cases hp : (parseNodeData jsonLoads iTrail sData []).1
  · simp only [hp, if_true]
    by_cases hc : (convert (parseNodeData jsonLoads iTrail sData []).2).1
    · simp only [hc, if_true]
      by_cases hu : (updateDatabase rrdOk rrdFile last
          (convert (parseNodeData jsonLoads iTrail sData []).2).2).1
      · simp [hu]
      · simp [hu]
    · simp [hc]
  · simp [hp]

/-- **C1.** In every poll cycle the stages run in the fixed order fetch,
parse (`parseNodeData`), convert (`convertData`), database update
(`updateDatabase`), output-file write (`writeOutputDataFile`); each
later stage runs exactly when every earlier stage succeeded, no rrdtool
update command is issued in a cycle whose fetch, parse, or convert step
failed, and `setNodeStatus` receives the overall cycle result. -/
theorem c1_poll_cycle_stage_order {α : Type} (fetch1 fetch2 : Option String)
    (jsonLoads : String → Option (List α)) (iTrail : ℕ)
    (convert : List α → Bool × List DataPoint)
    (rrdOk : String → Bool) (rrdFile : String) (last : Option ℤ)
    (writeOk : OutFile → Bool) (lastUpdate : String) :
    (pollCycle fetch1 fetch2 jsonLoads iTrail convert rrdOk rrdFile last
        writeOk lastUpdate).parseRan =
      (pollCycle fetch1 fetch2 jsonLoads iTrail convert rrdOk rrdFile last
        writeOk lastUpdate).fetchOk ∧
    ((pollCycle fetch1 fetch2 jsonLoads iTrail convert rrdOk rrdFile last
        writeOk lastUpdate).convertRan =
      ((pollCycle fetch1 fetch2 jsonLoads iTrail convert rrdOk rrdFile last
        writeOk lastUpdate).fetchOk &&
       (pollCycle fetch1 fetch2 jsonLoads iTrail convert rrdOk rrdFile last
        writeOk lastUpdate).parseOk)) ∧
    ((pollCycle fetch1 fetch2 jsonLoads iTrail convert rrdOk rrdFile last
        writeOk lastUpdate).updateRan =
      ((pollCycle fetch1 fetch2 jsonLoads iTrail convert rrdOk rrdFile last
        writeOk lastUpdate).fetchOk &&
       (pollCycle fetch1 fetch2 jsonLoads iTrail convert rrdOk rrdFile last
        writeOk lastUpdate).parseOk &&
       (pollCycle fetch1 fetch2 jsonLoads iTrail convert rrdOk rrdFile last
        writeOk lastUpdate).convertOk)) ∧
    ((pollCycle fetch1 fetch2 jsonLoads iTrail convert rrdOk rrdFile last
        writeOk lastUpdate).writeRan =
      ((pollCycle fetch1 fetch2 jsonLoads iTrail convert rrdOk rrdFile last
        writeOk lastUpdate).fetchOk &&
       (pollCycle fetch1 fetch2 jsonLoads iTrail convert rrdOk rrdFile last
        writeOk lastUpdate).parseOk &&
       (pollCycle fetch1 fetch2 jsonLoads iTrail convert rrdOk rrdFile last
        writeOk lastUpdate).convertOk &&
       (pollCycle fetch1 fetch2 jsonLoads iTrail convert rrdOk rrdFile last
        writeOk lastUpdate).updateOk)) ∧
    ((pollCycle fetch1 fetch2 jsonLoads iTrail convert rrdOk rrdFile last
        writeOk lastUpdate).statusArg =
      ((pollCycle fetch1 fetch2 jsonLoads iTrail convert rrdOk rrdFile last
        writeOk lastUpdate).fetchOk &&
       (pollCycle fetch1 fetch2 jsonLoads iTrail convert rrdOk rrdFile last
        writeOk lastUpdate).parseOk &&
       (pollCycle fetch1 fetch2 jsonLoads iTrail convert rrdOk rrdFile last
        writeOk lastUpdate).convertOk &&
       (pollCycle fetch1 fetch2 jsonLoads iTrail convert rrdOk rrdFile last
        writeOk lastUpdate).updateOk)) ∧
    ((pollCycle fetch1 fetch2 jsonLoads iTrail convert rrdOk rrdFile last
        writeOk lastUpdate).updateRan = false →
      (pollCycle fetch1 fetch2 jsonLoads iTrail convert rrdOk rrdFile last
        writeOk lastUpdate).rrdUpdateCmds = []) := by
  cases fetch1 with
  | some s =>
    have h := pollCycleBody_gating jsonLoads iTrail convert rrdOk rrdFile
      last writeOk lastUpdate 1 s
    simp only [pollCycle]
    exact ⟨by simp [h.2.2.1, h.2.1], by simp [h.2.1, h.2.2.2.1],
      by simp [h.2.1, h.2.2.2.2.1], by simp [h.2.1, h.2.2.2.2.2.1],
      by simp [h.2.1, h.2.2.2.2.2.2.1], h.2.2.2.2.2.2.2⟩
  | none =>
    cases fetch2 with
    | some s =>
      have h := pollCycleBody_gating jsonLoads iTrail convert rrdOk rrdFile
        last writeOk lastUpdate 2 s
      simp only [pollCycle]
      exact ⟨by simp [h.2.2.1, h.2.1], by simp [h.2.1, h.2.2.2.1],
        by simp [h.2.1, h.2.2.2.2.1], by simp [h.2.1, h.2.2.2.2.2.1],
        by simp [h.2.1, h.2.2.2.2.2.2.1], h.2.2.2.2.2.2.2⟩
    | none => simp [pollCycle]

/-- Witness for C1 at a concrete cycle whose fetch fails twice: no
rrdtool update command is issued. -/
theorem c1_witness :
    (pollCycle (α := Unit) none none (fun _ => none) 60
      (fun _ => (false, [])) (fun _ => false) "rrd" none
      (fun _ => false) "d").rrdUpdateCmds = [] :=
  (c1_poll_cycle_stage_order (α := Unit) none none (fun _ => none) 60
      (fun _ => (false, [])) (fun _ => false) "rrd" none
      (fun _ => false) "d").2.2.2.2.2 (by rfl)

/-- **C4 (amended).** The only retry in the agent is the single in-cycle
HTTP retry of `main` (lines 607-612): a cycle issues one request when
the first succeeds and exactly two otherwise, the fetch succeeds when
either attempt returns data, and a cycle with both attempts failed is
simply handed to `setNodeStatus` as a failure (the bare counter). -/
theorem c4_single_http_retry {α : Type} (fetch1 fetch2 : Option String)
    (jsonLoads : String → Option (List α)) (iTrail : ℕ)
    (convert : List α → Bool × List DataPoint)
    (rrdOk : String → Bool) (rrdFile : String) (last : Option ℤ)
    (writeOk : OutFile → Bool) (lastUpdate : String) :
    (pollCycle fetch1 fetch2 jsonLoads iTrail convert rrdOk rrdFile last
        writeOk lastUpdate).httpRequests =
      (if fetch1.isSome then 1 else 2) ∧
    (pollCycle fetch1 fetch2 jsonLoads iTrail convert rrdOk rrdFile last
        writeOk lastUpdate).fetchOk = (fetch1.isSome || fetch2.isSome) ∧
    ((pollCycle fetch1 fetch2 jsonLoads iTrail convert rrdOk rrdFile last
        writeOk lastUpdate).fetchOk = false →
      (pollCycle fetch1 fetch2 jsonLoads iTrail convert rrdOk rrdFile last
        writeOk lastUpdate).statusArg = false) := by
  cases fetch1 with
  | some s =>
    have h := pollCycleBody_gating jsonLoads iTrail convert rrdOk rrdFile
      last writeOk lastUpdate 1 s
    refine ⟨by simpa [pollCycle] using h.1, by simpa [pollCycle] using h.2.1,
      fun hc => ?_⟩
    rw [show (pollCycle (some s) fetch2 jsonLoads iTrail convert rrdOk
        rrdFile last writeOk lastUpdate).fetchOk = true from
          by simpa [pollCycle] using h.2.1] at hc
    exact absurd hc (by simp)
  | none =>
    cases fetch2 with
    | some s =>
      have h := pollCycleBody_gating jsonLoads iTrail convert rrdOk rrdFile
        last writeOk lastUpdate 2 s
      refine ⟨by simpa [pollCycle] using h.1,
        by simpa [pollCycle] using h.2.1, fun hc => ?_⟩
      rw [show (pollCycle none (some s) jsonLoads iTrail convert rrdOk
          rrdFile last writeOk lastUpdate).fetchOk = true from
            by simpa [pollCycle] using h.2.1] at hc
      exact absurd hc (by simp)
    | none => simp [pollCycle]

/-- Witness for C4's amended claim at a concrete cycle. -/
theorem c4_witness :
    (pollCycle (α := Unit) none none (fun _ => none) 60
      (fun _ => (false, [])) (fun _ => false) "rrd" none
      (fun _ => false) "d").statusArg = false :=
  (c4_single_http_retry (α := Unit) none none (fun _ => none) 60
      (fun _ => (false, [])) (fun _ => false) "rrd" none
      (fun _ => false) "d").2.2 (by rfl)

/-- **C4 counterexample.** When the first HTTP request of a cycle fails,
the agent does issue a second request within the same cycle, contrary to
the claim that no retry exists: this concrete cycle issues two requests. -/
theorem c4_counterexample_second_request_issued :
    (pollCycle (α := Unit) none (some "[]") (fun _ => none) 60
      (fun _ => (false, [])) (fun _ => false) "rrd" none
      (fun _ => false) "d").httpRequests = 2 := by
  rfl

/-- **C2 (code behaviour).** For every oracle, `writeOutputDataFile`
writes only the heartbeat file: its result is the success of that single
write, and the full node response is never written to
`_OUTPUT_DATA_FILE` — the write block after the early `return True` is
dead code. -/
theorem c2_output_data_file_never_written (writeOk : OutFile → Bool)
    (sData lastUpdate : String) (dataRequestInterval : ℕ) :
    (writeOutputDataFile writeOk sData lastUpdate dataRequestInterval).1 =
      writeOk OutFile.smallOutput ∧
    (writeOutputDataFile writeOk sData lastUpdate dataRequestInterval).2 =
      (if writeOk OutFile.smallOutput then
        [(OutFile.smallOutput, heartbeatString lastUpdate dataRequestInterval)]
      else []) ∧
    ((writeOutputDataFile writeOk sData lastUpdate
        dataRequestInterval).2.map Prod.fst).contains OutFile.outputData =
      false := by
  by_cases h : writeOk OutFile.smallOutput <;>
    simp [writeOutputDataFile, h]

/-- `json.loads` on the empty JSON array, the concrete parse used by the
C8 counterexample: `json.loads("[]") = []`. -/
def jsonLoadsEmptyArray : String → Option (List Unit) :=
  fun s => if s = "[]" then some [] else none

/-- **C8 counterexample.** The two `parseNodeData` functions differ: on
a node response whose JSON payload is the empty array (fewer data points
than `iTrail`), the main agent returns `False` and leaves the caller's
list unchanged, while the aredn_fw_3_19_3_0 variant returns `True` with
the empty list. -/
theorem c8_counterexample_truncated_list :
    parseNodeData jsonLoadsEmptyArray 60 "x[]y" [()] ≠
      parseNodeData_fw_3_19_3_0 jsonLoadsEmptyArray 60 "x[]y" [()] := by
  decide

/-- **C8 (amended).** The main agent's `parseNodeData` and the
aredn_fw_3_19_3_0 variant's agree whenever `json.loads` fails and
whenever the trimmed list has exactly `iTrail` elements; when the
trimmed list is shorter (the `"truncated list"` case) the main agent
returns `False` with the caller's list unchanged while the variant
returns `True` with the shorter list. -/
theorem c8_parseNodeData_agreement {α : Type}
    (jsonLoads : String → Option (List α)) (iTrail : ℕ)
    (sData : String) (ldData : List α) :
    (jsonLoads (pySlice1m1 sData) = none →
      parseNodeData jsonLoads iTrail sData ldData = (false, ldData) ∧
      parseNodeData_fw_3_19_3_0 jsonLoads iTrail sData ldData =
        (false, ldData)) ∧
    (∀ l, jsonLoads (pySlice1m1 sData) = some l →
      ((pyLastSlice iTrail l).length = iTrail →
        parseNodeData jsonLoads iTrail sData ldData =
          parseNodeData_fw_3_19_3_0 jsonLoads iTrail sData ldData) ∧
      ((pyLastSlice iTrail l).length ≠ iTrail →
        parseNodeData jsonLoads iTrail sData ldData = (false, ldData) ∧
        parseNodeData_fw_3_19_3_0 jsonLoads iTrail sData ldData =
          (true, pyLastSlice iTrail l))) := by
  refine ⟨fun h => ?_, fun l h => ⟨fun hlen => ?_, fun hlen => ?_⟩⟩
  · simp [parseNodeData, parseNodeData_fw_3_19_3_0, h]
  · simp [parseNodeData, parseNodeData_fw_3_19_3_0, h, hlen]
  · simp [parseNodeData, parseNodeData_fw_3_19_3_0, h, hlen]

/-- **C6.** `setMemory`/`getMemory` round-trip: for every memory record
accepted by `setMemory` (memloc in 1..118, VFO-A frequency between
30 kHz and 450 MHz, clarifier within ±9999 Hz, tag of at most 12
characters, and the coded fields drawn from the lookup tables), slicing
the `MT` command produced by `setMemory` at the fixed offsets used by
`getMemory` recovers exactly the original `memloc`, `vfoa` (as the
integer Hz value), `clarfreq`, `rxclar`, `txclar`, `mode`, `encode`,
`rpoffset`, and the whitespace-stripped tag. -/
theorem c6_setMemory_getMemory_roundtrip (d : MemSettings)
    (h1 : 1 ≤ d.memloc) (h2 : d.memloc ≤ 118)
    (h3 : 30000 ≤ d.vfoaHz) (h4 : d.vfoaHz ≤ 450000000)
    (h5 : d.clarfreq.natAbs ≤ 9999)
    (hrx : d.rxclar ∈ bState.map Prod.fst)
    (htx : d.txclar ∈ bState.map Prod.fst)
    (hmd : d.mode ∈ dMode.map Prod.fst)
    (hen : d.encode ∈ dEncode.map Prod.fst)
    (hrp : d.rpoffset ∈ dShift.map Prod.fst)
    (htag : d.tag.length ≤ 12) :
    ∃ cmd, setMemoryCmd d = .ok cmd ∧
      getMemoryParse cmd =
        { memloc := d.memloc, vfoaHz := d.vfoaHz, clarfreq := d.clarfreq,
          rxclar := some d.rxclar, txclar := some d.txclar,
          mode := some d.mode, encode := some d.encode,
          rpoffset := some d.rpoffset,
          tag := String.mk (pyStrip d.tag.toList) } := by
  obtain ⟨prx, hprxT, hprxk, hprxG⟩ := pyDictGet_ok bState d.rxclar hrx
  obtain ⟨ptx, hptxT, hptxk, hptxG⟩ := pyDictGet_ok bState d.txclar htx
  obtain ⟨pmd, hpmdT, hpmdk, hpmdG⟩ := pyDictGet_ok dMode d.mode hmd
  obtain ⟨pen, hpenT, hpenk, hpenG⟩ := pyDictGet_ok dEncode d.encode hen
  obtain ⟨prp, hprpT, hprpk, hprpG⟩ := pyDictGet_ok dShift d.rpoffset hrp
  have hc1 : ¬(d.memloc < 1 ∨ d.memloc > 118) := by omega
  have hc2 : ¬(d.vfoaHz < 30000 ∨ d.vfoaHz > 450000000) := by omega
  have hc3 : ¬(d.clarfreq.natAbs > 9999) := by omega
  have hc4 : ¬(d.tag.length > 12) := by omega
  have hcmd : setMemoryCmd d = .ok ("MT".toList ++ (fmtFixed 3 d.memloc ++
      (fmtFixed 9 d.vfoaHz ++ (fmtSign4 d.clarfreq ++ (prx.2.toList ++
      (ptx.2.toList ++ (pmd.2.toList ++ (['0'] ++ (pen.2.toList ++
      (['0', '0'] ++ (prp.2.toList ++ (['0'] ++
      (padRight12 d.tag.toList ++ [';']))))))))))))) := by
    simp only [setMemoryCmd, if_neg hc1, if_neg hc2, if_neg hc3,
      if_neg hc4, hprxG, hptxG, hpmdG, hpenG, hprpG,
      except_pure_unit_bind, except_ok_bind, List.append_assoc]
    rfl
  have lrx : prx.2.toList.length = 1 := values_len1_bState prx hprxT
  have ltx : ptx.2.toList.length = 1 := values_len1_bState ptx hptxT
  have lmd : pmd.2.toList.length = 1 := values_len1_dMode pmd hpmdT
  have len : pen.2.toList.length = 1 := values_len1_dEncode pen hpenT
  have lrp : prp.2.toList.length = 1 := values_len1_dShift prp hprpT
  refine ⟨_, hcmd, ?_⟩
  rw [getMemoryParse_append (fmtFixed 3 d.memloc) (fmtFixed 9 d.vfoaHz)
      (fmtSign4 d.clarfreq) prx.2.toList ptx.2.toList pmd.2.toList
      pen.2.toList prp.2.toList (padRight12 d.tag.toList)
      (fmtFixed_length 3 d.memloc) (fmtFixed_length 9 d.vfoaHz)
      (fmtSign4_length d.clarfreq) lrx ltx lmd len lrp
      (padRight12_length d.tag.toList htag),
    parseNatChars_fmtFixed_of_lt 3 d.memloc (by omega),
    parseNatChars_fmtFixed_of_lt 9 d.vfoaHz (by norm_num; omega),
    parseIntChars_fmtSign4 d.clarfreq h5]
  simp only [MemParsed.mk.injEq]
  refine ⟨trivial, trivial, trivial, ?_, ?_, ?_, ?_, ?_, ?_⟩
  · rw [show String.mk prx.2.toList = prx.2 from rfl,
      revLookup_leftInv_bState prx hprxT, hprxk]
  · rw [show String.mk ptx.2.toList = ptx.2 from rfl,
      revLookup_leftInv_bState ptx hptxT, hptxk]
  · rw [show String.mk pmd.2.toList = pmd.2 from rfl,
      revLookup_leftInv_dMode pmd hpmdT, hpmdk]
  · rw [show String.mk pen.2.toList = pen.2 from rfl,
      revLookup_leftInv_dEncode pen hpenT, hpenk]
  · rw [show String.mk prp.2.toList = prp.2 from rfl,
      revLookup_leftInv_dShift prp hprpT, hprpk]
  · rw [show padRight12 d.tag.toList = d.tag.toList ++
      List.replicate (12 - d.tag.toList.length) ' ' from rfl,
      pyStrip_append_spaces]

/-- Witness for C6 at the concrete memory channel from the module's own
test routine (memloc 98, 146.52 MHz, clarifier +1234 Hz, FM, tone
encode, tag `KA7JLO`). -/
theorem c6_witness :
    ∃ cmd,
      setMemoryCmd
          { memloc := 98, vfoaHz := 146520000, clarfreq := 1234,
            rxclar := "ON", txclar := "ON", mode := "FM",
            encode := "TONE ENC", rpoffset := "OFF", tag := "KA7JLO" } =
        .ok cmd ∧
      getMemoryParse cmd =
        { memloc := 98, vfoaHz := 146520000, clarfreq := 1234,
          rxclar := some "ON", txclar := some "ON", mode := some "FM",
          encode := some "TONE ENC", rpoffset := some "OFF",
          tag := String.mk (pyStrip "KA7JLO".toList) } :=
  c6_setMemory_getMemory_roundtrip
    { memloc := 98, vfoaHz := 146520000, clarfreq := 1234,
      rxclar := "ON", txclar := "ON", mode := "FM",
      encode := "TONE ENC", rpoffset := "OFF", tag := "KA7JLO" }
    (by decide) (by decide) (by decide) (by decide) (by decide)
    (by decide) (by decide) (by decide) (by decide) (by decide) (by decide)

/-- **C7.** Each FT991 translation table (`bState`, `dMode`, `dShift`,
`dPower`, `dEncode`, `dTones`, `dDcs`, `dPreamp`, `dNAR`) has pairwise
distinct values (is injective), and the reverse lookup
`list(T.keys())[list(T.values()).index(v)]` used by the `get` methods is
a left inverse of encoding: decoding `T[k]` returns `k` for every key;
in particular `getCTCSS` decodes the tone code that `setCTCSS` encodes
back to the same tone string. -/
theorem c7_translation_tables_left_inverse :
    (∀ p ∈ bState, revLookup bState p.2 = some p.1) ∧
    (∀ p ∈ dMode, revLookup dMode p.2 = some p.1) ∧
    (∀ p ∈ dShift, revLookup dShift p.2 = some p.1) ∧
    (∀ p ∈ dPower, revLookup dPower p.2 = some p.1) ∧
    (∀ p ∈ dEncode, revLookup dEncode p.2 = some p.1) ∧
    (∀ p ∈ dTones, revLookup dTones p.2 = some p.1) ∧
    (∀ p ∈ dDcs, revLookup dDcs p.2 = some p.1) ∧
    (∀ p ∈ dPreamp, revLookup dPreamp p.2 = some p.1) ∧
    (∀ p ∈ dNAR, revLookup dNAR p.2 = some p.1) ∧
    (bState.map Prod.snd).Nodup ∧ (dMode.map Prod.snd).Nodup ∧
    (dShift.map Prod.snd).Nodup ∧ (dPower.map Prod.snd).Nodup ∧
    (dEncode.map Prod.snd).Nodup ∧ (dTones.map Prod.snd).Nodup ∧
    (dDcs.map Prod.snd).Nodup ∧ (dPreamp.map Prod.snd).Nodup ∧
    (dNAR.map Prod.snd).Nodup ∧
    (∀ p ∈ dTones, setCTCSSCmd p.1 = .ok ("CN00" ++ p.2 ++ ";") ∧
      getCTCSSDecode ("CN00" ++ p.2 ++ ";") = some p.1) :=
  ⟨revLookup_leftInv_bState, revLookup_leftInv_dMode,
   revLookup_leftInv_dShift, revLookup_leftInv_dPower,
   revLookup_leftInv_dEncode, revLookup_leftInv_dTones,
   revLookup_leftInv_dDcs, revLookup_leftInv_dPreamp,
   revLookup_leftInv_dNAR, values_nodup_small.1, values_nodup_small.2.1,
   values_nodup_small.2.2.1, values_nodup_small.2.2.2.1,
   values_nodup_small.2.2.2.2.1, values_nodup_dTones, values_nodup_dDcs,
   values_nodup_small.2.2.2.2.2.1, values_nodup_small.2.2.2.2.2.2,
   ctcss_encode_decode⟩

/-- Witness for C7 at the concrete CTCSS tone `127.3 Hz` (code `019`)
and the DCS code `754` (value `103`). -/
theorem c7_witness :
    (setCTCSSCmd "127.3 Hz" = .ok "CN00019;" ∧
      getCTCSSDecode "CN00019;" = some "127.3 Hz") ∧
    revLookup dDcs "103" = some "754" :=
  ⟨c7_translation_tables_left_inverse.2.2.2.2.2.2.2.2.2.2.2.2.2.2.2.2.2.2
      ("127.3 Hz", "019") (by decide),
   c7_translation_tables_left_inverse.2.2.2.2.2.2.1 ("754", "103")
      (by decide)⟩

/-- Witness for C8's amended claim: both functions return `False` on a
response whose payload fails `json.loads`. -/
theorem c8_witness :
    parseNodeData jsonLoadsEmptyArray 60 "ab" [()] = (false, [()]) ∧
      parseNodeData_fw_3_19_3_0 jsonLoadsEmptyArray 60 "ab" [()] =
        (false, [()]) :=
  (c8_parseNodeData_agreement jsonLoadsEmptyArray 60 "ab" [()]).1 (by decide)

end Ham
